import Mathlib

/-!
Verification development for the pyralph repository.

The Python sources are shallowly embedded as Lean definitions:

* `TokenTracker`        — src/ralph/tokens.py
* `GutterDetector`      — src/ralph/gutter.py
* `Signal`, `detect_signal` — src/ralph/signals.py
* `processAssistantContent`, `streamAssistantSignals` — the assistant branch of
  `process_line` and the per-event threshold checks of `parse_stream` in
  src/ralph/parser.py
* `matchCheckbox`, `count_criteria`, `check_completion` — src/ralph/task.py
* `RalphFS`, `archive_completed_task_loop`, `archive_completed_task_full` —
  the archive routine defined locally in src/ralph/loop.py and the one in
  src/ralph/archive.py, over an explicit file-system record
* `rotateCursor` — ProviderRotation.rotate in src/ralph/providers/rotation.py
* `driverBody`, `driverRun`, `cliRun` — the body of the while loop in
  run_ralph_loop (src/ralph/loop.py) and the surrounding run command in
  src/ralph/cli.py; wall-clock effects (datetime, the 60 s operator wait)
  enter as explicit oracle inputs, as do the per-iteration results of the
  agent subprocess.
-/

namespace Ralph

/-! Embedding of src/ralph/tokens.py (class TokenTracker). -/

def WARN_THRESHOLD : Nat := 72000

def ROTATE_THRESHOLD : Nat := 80000

structure TokenTracker where
  bytes_read : Nat
  bytes_written : Nat
  assistant_chars : Nat
  shell_output_chars : Nat
  prompt_chars : Nat
  warn_sent : Bool
  warn_threshold : Nat
  rotate_threshold : Nat
deriving Repr, DecidableEq

def TokenTracker.init (warn_threshold rotate_threshold : Nat) : TokenTracker :=
  { bytes_read := 0
    bytes_written := 0
    assistant_chars := 0
    shell_output_chars := 0
    prompt_chars := 3000
    warn_sent := false
    warn_threshold := warn_threshold
    rotate_threshold := rotate_threshold }

def TokenTracker.add_read (t : TokenTracker) (bytes_count : Nat) : TokenTracker :=
  { t with bytes_read := t.bytes_read + bytes_count }

def TokenTracker.add_write (t : TokenTracker) (bytes_count : Nat) : TokenTracker :=
  { t with bytes_written := t.bytes_written + bytes_count }

def TokenTracker.add_assistant (t : TokenTracker) (chars : Nat) : TokenTracker :=
  { t with assistant_chars := t.assistant_chars + chars }

def TokenTracker.add_shell_output (t : TokenTracker) (chars : Nat) : TokenTracker :=
  { t with shell_output_chars := t.shell_output_chars + chars }

def TokenTracker.calculate_tokens (t : TokenTracker) : Nat :=
  (t.prompt_chars + t.bytes_read + t.bytes_written + t.assistant_chars
    + t.shell_output_chars) / 4

def TokenTracker.should_warn (t : TokenTracker) : Bool × TokenTracker :=
  if t.warn_threshold ≤ t.calculate_tokens ∧ t.warn_sent = false then
    (true, { t with warn_sent := true })
  else
    (false, t)

def TokenTracker.should_rotate (t : TokenTracker) : Bool :=
  decide (t.rotate_threshold ≤ t.calculate_tokens)

/-- A call made against one TokenTracker instance: the four add operations
(counts are Nat, hence non-negative as in the claim) and the two threshold
queries. -/
inductive TrackerOp where
  | addRead (n : Nat)
  | addWrite (n : Nat)
  | addAssistant (n : Nat)
  | addShell (n : Nat)
  | checkWarn
  | checkRotate
deriving Repr, DecidableEq

def TokenTracker.applyOp (t : TokenTracker) : TrackerOp → TokenTracker
  | .addRead n => t.add_read n
  | .addWrite n => t.add_write n
  | .addAssistant n => t.add_assistant n
  | .addShell n => t.add_shell_output n
  | .checkWarn => t.should_warn.2
  | .checkRotate => t

/-- The results returned by the should_warn calls of an op sequence, in order. -/
def TokenTracker.warnOutputs (t : TokenTracker) : List TrackerOp → List Bool
  | [] => []
  | .checkWarn :: rest => t.should_warn.1 :: (t.applyOp .checkWarn).warnOutputs rest
  | op :: rest => (t.applyOp op).warnOutputs rest

/-- The token estimate at the moment of each should_warn call of an op
sequence, in order. -/
def TokenTracker.warnEstimates (t : TokenTracker) : List TrackerOp → List Nat
  | [] => []
  | .checkWarn :: rest => t.calculate_tokens :: (t.applyOp .checkWarn).warnEstimates rest
  | op :: rest => (t.applyOp op).warnEstimates rest

/-- The results returned by the should_rotate calls of an op sequence, in order. -/
def TokenTracker.rotateOutputs (t : TokenTracker) : List TrackerOp → List Bool
  | [] => []
  | .checkRotate :: rest => t.should_rotate :: (t.applyOp .checkRotate).rotateOutputs rest
  | op :: rest => (t.applyOp op).rotateOutputs rest

/-- The token estimate at the moment of each should_rotate call of an op
sequence, in order. -/
def TokenTracker.rotateEstimates (t : TokenTracker) : List TrackerOp → List Nat
  | [] => []
  | .checkRotate :: rest => t.calculate_tokens :: (t.applyOp .checkRotate).rotateEstimates rest
  | op :: rest => (t.applyOp op).rotateEstimates rest

/-- Specification helper: the boolean sequence that is true exactly at the
first entry of the estimate sequence that reaches the threshold w. -/
def firstHitMask (w : Nat) : List Nat → List Bool
  | [] => []
  | e :: rest =>
    if w ≤ e then true :: rest.map (fun _ => false)
    else false :: firstHitMask w rest

/-! Embedding of src/ralph/gutter.py (class GutterDetector). The failures
mapping is a total function String → Nat, mirroring defaultdict(int); the
write log carries unix-second timestamps supplied by the caller (time.time()
is an input of the embedding). -/

structure GutterDetector where
  failures : String → Nat
  writes : List (Int × String)

def GutterDetector.init : GutterDetector :=
  { failures := fun _ => 0, writes := [] }

def GutterDetector.track_failure (d : GutterDetector) (command : String)
    (exit_code : Int) : Bool × GutterDetector :=
  if exit_code ≠ 0 then
    let failures1 : String → Nat :=
      fun c => if c = command then d.failures c + 1 else d.failures c
    let count := failures1 command
    (decide (3 ≤ count), { d with failures := failures1 })
  else
    (false, d)

def GutterDetector.track_write (d : GutterDetector) (now : Int)
    (filepath : String) : Bool × GutterDetector :=
  let writes1 := d.writes ++ [(now, filepath)]
  let cutoff := now - 600
  let writes2 := writes1.filter (fun p => decide (cutoff ≤ p.1))
  let count := (writes2.filter (fun p => decide (p.2 = filepath))).length
  (decide (5 ≤ count), { d with writes := writes2 })

/-! Embedding of src/ralph/signals.py. The Signal members are listed in their
Python declaration order, which is the order detect_signal scans. -/

inductive Signal where
  | COMPLETE
  | ROTATE
  | GUTTER
  | QUESTION
  | VERIFY_PASS
  | VERIFY_FAIL
  | WARN
  | DONE
deriving Repr, DecidableEq

def Signal.value : Signal → String
  | .COMPLETE => "COMPLETE"
  | .ROTATE => "ROTATE"
  | .GUTTER => "GUTTER"
  | .QUESTION => "QUESTION"
  | .VERIFY_PASS => "VERIFY_PASS"
  | .VERIFY_FAIL => "VERIFY_FAIL"
  | .WARN => "WARN"
  | .DONE => "DONE"

def make_tag (signal : Signal) : String :=
  "<ralph>" ++ signal.value ++ "</ralph>"

/-- Containment of one character sequence in another (the Python substring
operator `in`). -/
def listContainsSeq (tag : List Char) : List Char → Bool
  | [] => tag.isEmpty
  | c :: rest => tag.isPrefixOf (c :: rest) || listContainsSeq tag rest

def containsTag (text tag : String) : Bool :=
  listContainsSeq tag.data text.data

/-- Iteration over the Signal enum, in declaration order. -/
def signalMembers : List Signal :=
  [.COMPLETE, .ROTATE, .GUTTER, .QUESTION, .VERIFY_PASS, .VERIFY_FAIL, .WARN, .DONE]

def detect_signal (text : String) : Option Signal :=
  signalMembers.find? (fun s => containsTag text (make_tag s))

/-! Embedding of the assistant branch of process_line and the per-event
threshold checks of parse_stream (src/ralph/parser.py). An assistant event
carries a list of text items; process_line adds each text length to the
budget and returns on the first sentinel tag found by its inline checks. -/

def processAssistantItem (t : TokenTracker) (text : String) :
    TokenTracker × Option String :=
  let t1 := t.add_assistant text.length
  if containsTag text "<ralph>COMPLETE</ralph>" then (t1, some "COMPLETE")
  else if containsTag text "<ralph>GUTTER</ralph>" then (t1, some "GUTTER")
  else if containsTag text "<ralph>QUESTION</ralph>" then (t1, some "QUESTION")
  else if containsTag text "<ralph>VERIFY_PASS</ralph>" then (t1, some "VERIFY_PASS")
  else if containsTag text "<ralph>VERIFY_FAIL</ralph>" then (t1, some "VERIFY_FAIL")
  else (t1, none)

def processAssistantContent (t : TokenTracker) :
    List String → TokenTracker × Option String
  | [] => (t, none)
  | text :: rest =>
    match processAssistantItem t text with
    | (t1, some s) => (t1, some s)
    | (t1, none) => processAssistantContent t1 rest

/-- All signals parse_stream yields for one assistant event: the signal
returned by process_line, then ROTATE if should_rotate, then WARN if
should_warn (in that order, as in the loop body of parse_stream). -/
def streamAssistantSignals (t : TokenTracker) (content : List String) :
    TokenTracker × List String :=
  let (t1, sig) := processAssistantContent t content
  let base : List String := match sig with | some s => [s] | none => []
  let withRotate := if t1.should_rotate then base ++ ["ROTATE"] else base
  let (warned, t2) := t1.should_warn
  (t2, if warned then withRotate ++ ["WARN"] else withRotate)

/-! Embedding of src/ralph/task.py. A file is modelled as its list of lines
(content.splitlines()); the checkbox regex
`^\s*([-*]|[0-9]+\.)\s+\[([ x])\]` is unfolded into an explicit matcher on
the character list of a line. -/

def isPySpace (c : Char) : Bool :=
  c = ' ' || c = '\t' || c = '\n' || c = '\r'
    || c = Char.ofNat 11 || c = Char.ofNat 12

/-- The part of the checkbox regex after the bullet: one or more spaces, then
the bracketed mark. Returns the mark character when the line matches. -/
def afterBullet : List Char → Option Char
  | [] => none
  | c :: rest =>
    if isPySpace c then
      match rest.dropWhile isPySpace with
      | '[' :: m :: ']' :: _ => if m = ' ' || m = 'x' then some m else none
      | _ => none
    else none

/-- re.match of the checkbox pattern against a line; returns the mark
character of group 2 when the line is a criterion line. -/
def matchCheckbox (line : List Char) : Option Char :=
  match line.dropWhile isPySpace with
  | [] => none
  | '-' :: rest => afterBullet rest
  | '*' :: rest => afterBullet rest
  | c :: rest =>
    if c.isDigit then
      match (c :: rest).dropWhile Char.isDigit with
      | '.' :: rest2 => afterBullet rest2
      | _ => none
    else none

/-- count_criteria: (done, total) over the lines of the task file. -/
def count_criteria (lines : List (List Char)) : Nat × Nat :=
  lines.foldl
    (fun acc line =>
      match matchCheckbox line with
      | some m => (if m = 'x' then acc.1 + 1 else acc.1, acc.2 + 1)
      | none => acc)
    (0, 0)

def check_completion (lines : List (List Char)) : String :=
  let dt := count_criteria lines
  if dt.2 = 0 then "NO_CRITERIA"
  else if dt.1 = dt.2 then "COMPLETE"
  else "INCOMPLETE:" ++ toString (dt.2 - dt.1)

/-! File-system model for the workspace state the archive routines touch:
RALPH_TASK.md, the four .ralph state files, and the .ralph/completed/
directory (a list of name-content pairs, in creation order). A field holds
none when the file does not exist. -/

structure RalphFS where
  taskFile : Option String
  progress : Option String
  activity : Option String
  errors : Option String
  guardrails : Option String
  completed : List (String × String)
deriving Repr, DecidableEq

/-- The initial contents archive.py resets progress.md to (its canonical
header, identical to DEFAULT_PROGRESS_CONTENT in state.py). -/
def PROGRESS_HEADER : String :=
  "# Progress Log\n\n> Updated by the agent after significant work.\n\n---\n\n## Session History\n\n"

def ACTIVITY_HEADER : String :=
  "# Activity Log\n\n> Real-time tool call logging from parser.\n\n"

def ERRORS_HEADER : String :=
  "# Error Log\n\n> Failures detected by parser. Use to update guardrails.\n\n"

/-- archive_completed_task as defined locally in src/ralph/loop.py (the
version the driver loop actually calls): move RALPH_TASK.md to
completed/RALPH_TASK_<ts>.md and nothing else. The timestamp string is an
input (datetime.now() of the caller). Returns the archive name, or none when
no task file exists. -/
def archive_completed_task_loop (fs : RalphFS) (timestamp : String) :
    RalphFS × Option String :=
  match fs.taskFile with
  | none => (fs, none)
  | some content =>
    let archiveName := "RALPH_TASK_" ++ timestamp ++ ".md"
    ({ fs with
        taskFile := none
        completed := fs.completed ++ [(archiveName, content)] },
      some archiveName)

/-- One step of _archive_state_files in src/ralph/archive.py: when the state
file exists, copy its content to completed/<base>_<ts>.<ext> and reset the
file in place to its initial content; otherwise do nothing. -/
def archiveStateFile (completed : List (String × String))
    (file : Option String) (base ext timestamp initial : String) :
    List (String × String) × Option String :=
  match file with
  | none => (completed, none)
  | some content =>
    (completed ++ [(base ++ "_" ++ timestamp ++ "." ++ ext, content)],
      some initial)

/-- archive_completed_task as defined in src/ralph/archive.py: move the task
file, then archive and reset progress.md, activity.log and errors.log with
the same timestamp; guardrails.md is not touched. This function is defined
in the repository but never imported by the driver. -/
def archive_completed_task_full (fs : RalphFS) (timestamp : String) :
    RalphFS × Option String :=
  match fs.taskFile with
  | none => (fs, none)
  | some content =>
    let archiveName := "RALPH_TASK_" ++ timestamp ++ ".md"
    let c0 := fs.completed ++ [(archiveName, content)]
    let pr := archiveStateFile c0 fs.progress "progress" "md" timestamp PROGRESS_HEADER
    let ac := archiveStateFile pr.1 fs.activity "activity" "log" timestamp ACTIVITY_HEADER
    let er := archiveStateFile ac.1 fs.errors "errors" "log" timestamp ERRORS_HEADER
    ({ fs with
        taskFile := none
        progress := pr.2
        activity := ac.2
        errors := er.2
        completed := er.1 },
      some archiveName)

/-! Embedding of ProviderRotation (src/ralph/providers/rotation.py) over a
ring of n providers with a cursor index: rotate() leaves the cursor alone
for a single-member ring and otherwise advances it modulo n. has_next() is
1 < n. The driver guarantees 1 ≤ n before entering the loop. -/

def rotateCursor (n cursor : Nat) : Nat :=
  if n ≤ 1 then cursor else (cursor + 1) % n

/-! Embedding of the while loop of run_ralph_loop (src/ralph/loop.py) and of
the run command of src/ralph/cli.py. Each pass consumes one IterOutcome, the
oracle record of everything the environment produced during that pass: the
result of run_single_iteration (an exception or a signal string), the
completion status read from the task file afterwards, the question file the
agent may have written, the operator answer arriving within the 60 s wait
(none on timeout, empty input or interrupt), and the verification signal in
case a verification runs. -/

/-- Python str.startswith, over the character lists of the strings. -/
def stringStartsWith (pre s : String) : Bool :=
  pre.data.isPrefixOf s.data

structure DriverParams where
  nProviders : Nat
  maxIterations : Nat
  maxVerificationFailures : Nat
deriving Repr, DecidableEq

structure DriverState where
  iteration : Nat
  verification_failures : Nat
  cursor : Nat
  qfile : Option String
  afile : Option String
deriving Repr, DecidableEq

def DriverState.start : DriverState :=
  { iteration := 1, verification_failures := 0, cursor := 0,
    qfile := none, afile := none }

structure IterOutcome where
  raised : Bool
  signal : String
  status : String
  qwrite : Option String
  answer : Option String
  verify : String
deriving Repr, DecidableEq

/-- Observable actions of one pass of the driver loop. A spawnAgent event
records the iteration number, the ring cursor selecting the provider, and
whether .ralph/answer.md exists at the moment the agent subprocess is
spawned. -/
inductive LoopEv where
  | spawnAgent (iteration : Nat) (cursor : Nat) (answerPresent : Bool)
  | spawnVerifier (cursor : Nat)
  | archive
deriving Repr, DecidableEq

inductive BodyResult where
  | next (st : DriverState)
  | done (st : DriverState)
deriving Repr, DecidableEq

/-- One pass of the while body of run_ralph_loop. Mirrors, in order: the
question and answer file cleanup at the top of the loop, the agent spawn,
the completion check, the verification promotion (including the
max-verification-failures skip that archives and returns), and the ROTATE /
GUTTER / QUESTION / natural-finish signal branches, plus the exception
branch of the surrounding try. done means run_ralph_loop returns. -/
def driverBody (P : DriverParams) (st0 : DriverState) (o : IterOutcome) :
    List LoopEv × BodyResult :=
  let st1 : DriverState := { st0 with qfile := none, afile := none }
  let spawnEv := LoopEv.spawnAgent st1.iteration st1.cursor st1.afile.isSome
  if o.raised then
    let cursor1 := rotateCursor P.nProviders st1.cursor
    if 1 < P.nProviders then
      ([spawnEv], .next { st1 with cursor := cursor1 })
    else
      ([spawnEv], .next { st1 with cursor := cursor1, iteration := st1.iteration + 1 })
  else
    let st2 : DriverState := { st1 with qfile := o.qwrite }
    if o.signal = "COMPLETE" ∧ o.status ≠ "COMPLETE" then
      ([spawnEv], .next { st2 with iteration := st2.iteration + 1 })
    else if o.status = "COMPLETE" then
      if P.maxVerificationFailures ≤ st2.verification_failures then
        ([spawnEv, .archive], .done st2)
      else
        let cursor1 := rotateCursor P.nProviders st2.cursor
        let st3 : DriverState := { st2 with cursor := cursor1 }
        if o.verify = "VERIFY_PASS" then
          ([spawnEv, .spawnVerifier cursor1, .archive], .done st3)
        else
          ([spawnEv, .spawnVerifier cursor1],
            .next { st3 with
              verification_failures := st3.verification_failures + 1
              iteration := st3.iteration + 1 })
    else if o.signal = "ROTATE" then
      ([spawnEv], .next { st2 with iteration := st2.iteration + 1 })
    else if o.signal = "GUTTER" then
      let cursor1 := rotateCursor P.nProviders st2.cursor
      let st3 : DriverState := { st2 with cursor := cursor1 }
      if 1 < P.nProviders then
        ([spawnEv], .next st3)
      else
        ([spawnEv], .next { st3 with iteration := st3.iteration + 1 })
    else if o.signal = "QUESTION" then
      match st2.qfile with
      | some _ =>
        ([spawnEv], .next { st2 with
          qfile := none
          afile := some (o.answer.getD "")
          iteration := st2.iteration + 1 })
      | none =>
        ([spawnEv], .next { st2 with iteration := st2.iteration + 1 })
    else
      if stringStartsWith "INCOMPLETE:" o.status then
        ([spawnEv], .next { st2 with iteration := st2.iteration + 1 })
      else
        ([spawnEv], .next st2)

inductive LoopOutcome where
  | success
  | maxIterationsReached
deriving Repr, DecidableEq

/-- The while loop of run_ralph_loop, driven by a finite prefix of oracle
outcomes. success is run_ralph_loop returning normally;
maxIterationsReached is the Exception raised after the loop; none means the
loop is still running when the supplied outcomes are exhausted. -/
def driverRun (P : DriverParams) :
    DriverState → List IterOutcome → List LoopEv × Option LoopOutcome
  | st, os =>
    if P.maxIterations < st.iteration then ([], some .maxIterationsReached)
    else
      match os with
      | [] => ([], none)
      | o :: rest =>
        match driverBody P st o with
        | (evs, .done _) => (evs, some .success)
        | (evs, .next st1) =>
          let tail := driverRun P st1 rest
          (evs ++ tail.1, tail.2)

/-- The run command of src/ralph/cli.py around run_ralph_loop: when the
completion check already reports COMPLETE before the loop, exit 0 without
spawning anything; otherwise run the loop, exiting 0 on normal return and 1
on the max-iterations Exception. The result is (events, exit code), with
none while the loop is still running. -/
def cliRun (P : DriverParams) (initialStatus : String)
    (os : List IterOutcome) : List LoopEv × Option Nat :=
  if initialStatus = "COMPLETE" then ([], some 0)
  else
    match driverRun P DriverState.start os with
    | (evs, some .success) => (evs, some 0)
    | (evs, some .maxIterationsReached) => (evs, some 1)
    | (evs, none) => (evs, none)

/-! Lemmas about the TokenTracker embedding. -/

theorem should_warn_of_sent (t : TokenTracker) (h : t.warn_sent = true) :
    t.should_warn = (false, t) := by
  simp [TokenTracker.should_warn, h]

theorem should_warn_snd_of_not_le (t : TokenTracker)
    (h : ¬ t.warn_threshold ≤ t.calculate_tokens) :
    t.should_warn = (false, t) := by
  simp [TokenTracker.should_warn, h]

theorem should_warn_of_le (t : TokenTracker) (hs : t.warn_sent = false)
    (h : t.warn_threshold ≤ t.calculate_tokens) :
    t.should_warn = (true, { t with warn_sent := true }) := by
  simp [TokenTracker.should_warn, h, hs]

theorem applyOp_warn_sent_true (t : TokenTracker) (op : TrackerOp)
    (h : t.warn_sent = true) : (t.applyOp op).warn_sent = true := by
  cases op <;>
    simp [TokenTracker.applyOp, TokenTracker.add_read, TokenTracker.add_write,
      TokenTracker.add_assistant, TokenTracker.add_shell_output,
      should_warn_of_sent t h, h]

theorem applyOp_warn_threshold (t : TokenTracker) (op : TrackerOp) :
    (t.applyOp op).warn_threshold = t.warn_threshold := by
  cases op <;>
    first
      | rfl
      | (simp only [TokenTracker.applyOp, TokenTracker.should_warn]; split <;> rfl)

theorem applyOp_rotate_threshold (t : TokenTracker) (op : TrackerOp) :
    (t.applyOp op).rotate_threshold = t.rotate_threshold := by
  cases op <;>
    first
      | rfl
      | (simp only [TokenTracker.applyOp, TokenTracker.should_warn]; split <;> rfl)

theorem applyOp_warn_sent_of_not_checkWarn (t : TokenTracker) (op : TrackerOp)
    (h : op ≠ .checkWarn) : (t.applyOp op).warn_sent = t.warn_sent := by
  cases op <;>
    simp [TokenTracker.applyOp, TokenTracker.add_read, TokenTracker.add_write,
      TokenTracker.add_assistant, TokenTracker.add_shell_output] at h ⊢

theorem warnOutputs_all_false (t : TokenTracker) (ops : List TrackerOp)
    (h : t.warn_sent = true) :
    t.warnOutputs ops = (t.warnEstimates ops).map (fun _ => false) := by
  induction ops generalizing t with
  | nil => rfl
  | cons op rest ih =>
    cases op with
    | checkWarn =>
      simp only [TokenTracker.warnOutputs, TokenTracker.warnEstimates,
        TokenTracker.applyOp, should_warn_of_sent t h, List.map]
      exact congrArg (List.cons false) (ih t h)
    | addRead n =>
      simpa only [TokenTracker.warnOutputs, TokenTracker.warnEstimates]
        using ih (t.applyOp (.addRead n)) (applyOp_warn_sent_true t _ h)
    | addWrite n =>
      simpa only [TokenTracker.warnOutputs, TokenTracker.warnEstimates]
        using ih (t.applyOp (.addWrite n)) (applyOp_warn_sent_true t _ h)
    | addAssistant n =>
      simpa only [TokenTracker.warnOutputs, TokenTracker.warnEstimates]
        using ih (t.applyOp (.addAssistant n)) (applyOp_warn_sent_true t _ h)
    | addShell n =>
      simpa only [TokenTracker.warnOutputs, TokenTracker.warnEstimates]
        using ih (t.applyOp (.addShell n)) (applyOp_warn_sent_true t _ h)
    | checkRotate =>
      simpa only [TokenTracker.warnOutputs, TokenTracker.warnEstimates]
        using ih (t.applyOp .checkRotate) (applyOp_warn_sent_true t _ h)

theorem warnOutputs_firstHitMask (t : TokenTracker) (ops : List TrackerOp)
    (h : t.warn_sent = false) :
    t.warnOutputs ops = firstHitMask t.warn_threshold (t.warnEstimates ops) := by
  induction ops generalizing t with
  | nil => rfl
  | cons op rest ih =>
    cases op with
    | checkWarn =>
      by_cases hw : t.warn_threshold ≤ t.calculate_tokens
      · have hsw := should_warn_of_le t h hw
        simp only [TokenTracker.warnOutputs, TokenTracker.warnEstimates,
          TokenTracker.applyOp, hsw, firstHitMask, if_pos hw]
        exact congrArg (List.cons true)
          (warnOutputs_all_false { t with warn_sent := true } rest rfl)
      · have hsw := should_warn_snd_of_not_le t hw
        simp only [TokenTracker.warnOutputs, TokenTracker.warnEstimates,
          TokenTracker.applyOp, hsw, firstHitMask, if_neg hw]
        exact congrArg (List.cons false) (ih t h)
    | addRead n =>
      have := ih (t.applyOp (.addRead n)) (by simpa [applyOp_warn_sent_of_not_checkWarn t (.addRead n) (by simp)] using h)
      simpa only [TokenTracker.warnOutputs, TokenTracker.warnEstimates,
        applyOp_warn_threshold] using this
    | addWrite n =>
      have := ih (t.applyOp (.addWrite n)) (by simpa [applyOp_warn_sent_of_not_checkWarn t (.addWrite n) (by simp)] using h)
      simpa only [TokenTracker.warnOutputs, TokenTracker.warnEstimates,
        applyOp_warn_threshold] using this
    | addAssistant n =>
      have := ih (t.applyOp (.addAssistant n)) (by simpa [applyOp_warn_sent_of_not_checkWarn t (.addAssistant n) (by simp)] using h)
      simpa only [TokenTracker.warnOutputs, TokenTracker.warnEstimates,
        applyOp_warn_threshold] using this
    | addShell n =>
      have := ih (t.applyOp (.addShell n)) (by simpa [applyOp_warn_sent_of_not_checkWarn t (.addShell n) (by simp)] using h)
      simpa only [TokenTracker.warnOutputs, TokenTracker.warnEstimates,
        applyOp_warn_threshold] using this
    | checkRotate =>
      have := ih (t.applyOp .checkRotate) (by simpa [applyOp_warn_sent_of_not_checkWarn t .checkRotate (by simp)] using h)
      simpa only [TokenTracker.warnOutputs, TokenTracker.warnEstimates,
        applyOp_warn_threshold] using this

theorem count_true_map_false (l : List Nat) :
    ((l.map (fun _ => false)).count true) = 0 := by
  induction l with
  | nil => rfl
  | cons e rest ih => simpa [List.count_cons] using ih

theorem count_true_firstHitMask (w : Nat) (l : List Nat) :
    ((firstHitMask w l).count true) ≤ 1 := by
  induction l with
  | nil => simp [firstHitMask]
  | cons e rest ih =>
    by_cases hw : w ≤ e
    · simp [firstHitMask, if_pos hw, List.count_cons, List.count_replicate]
    · simpa [firstHitMask, if_neg hw, List.count_cons] using ih

theorem rotateOutputs_map (t : TokenTracker) (ops : List TrackerOp) :
    t.rotateOutputs ops
      = (t.rotateEstimates ops).map (fun e => decide (t.rotate_threshold ≤ e)) := by
  induction ops generalizing t with
  | nil => rfl
  | cons op rest ih =>
    cases op with
    | checkRotate =>
      simp only [TokenTracker.rotateOutputs, TokenTracker.rotateEstimates,
        TokenTracker.applyOp, TokenTracker.should_rotate, List.map]
      exact congrArg (List.cons _) (ih t)
    | checkWarn =>
      have := ih (t.applyOp .checkWarn)
      simpa only [TokenTracker.rotateOutputs, TokenTracker.rotateEstimates,
        applyOp_rotate_threshold] using this
    | addRead n =>
      have := ih (t.applyOp (.addRead n))
      simpa only [TokenTracker.rotateOutputs, TokenTracker.rotateEstimates,
        applyOp_rotate_threshold] using this
    | addWrite n =>
      have := ih (t.applyOp (.addWrite n))
      simpa only [TokenTracker.rotateOutputs, TokenTracker.rotateEstimates,
        applyOp_rotate_threshold] using this
    | addAssistant n =>
      have := ih (t.applyOp (.addAssistant n))
      simpa only [TokenTracker.rotateOutputs, TokenTracker.rotateEstimates,
        applyOp_rotate_threshold] using this
    | addShell n =>
      have := ih (t.applyOp (.addShell n))
      simpa only [TokenTracker.rotateOutputs, TokenTracker.rotateEstimates,
        applyOp_rotate_threshold] using this

/-- C7: for any sequence of add operations with non-negative counts
interleaved with threshold queries on one estimator instance, the
should_warn results are true at most once, namely exactly at the first
should_warn call whose token estimate has reached the warn threshold
(firstHitMask), while the should_rotate results are not latching: each
should_rotate call returns true exactly when the estimate at that call is at
or above the rotate threshold. -/
theorem C7_should_warn_latches_should_rotate_does_not
    (w r : Nat) (ops : List TrackerOp) :
    (((TokenTracker.init w r).warnOutputs ops).count true ≤ 1)
    ∧ (TokenTracker.init w r).warnOutputs ops
        = firstHitMask w ((TokenTracker.init w r).warnEstimates ops)
    ∧ (TokenTracker.init w r).rotateOutputs ops
        = ((TokenTracker.init w r).rotateEstimates ops).map
            (fun e => decide (r ≤ e)) := by
  refine ⟨?_, ?_, ?_⟩
  · rw [warnOutputs_firstHitMask (TokenTracker.init w r) ops rfl]
    exact count_true_firstHitMask _ _
  · exact warnOutputs_firstHitMask (TokenTracker.init w r) ops rfl
  · exact rotateOutputs_map (TokenTracker.init w r) ops

/-- C1: the claim states that an assistant.text event containing the exact
tag of ROTATE (and no COMPLETE tag before it in the scanning order) makes the
stream supervisor decode and emit ROTATE. The code does not: the inline tag
checks of process_line skip ROTATE, so for the event whose text is exactly
the ROTATE tag the supervisor emits no signal at all (the budget check does
not fire either: the fresh tracker is far below the rotate threshold), even
though the detect_signal function of signals.py — which the stream path
never calls — decodes that same text to ROTATE, and the iteration prompt
instructs the agent to emit exactly this tag. -/
theorem C1_rotate_tag_not_decoded_by_stream :
    (streamAssistantSignals (TokenTracker.init WARN_THRESHOLD ROTATE_THRESHOLD)
        ["<ralph>ROTATE</ralph>"]).2 = []
    ∧ (processAssistantContent (TokenTracker.init WARN_THRESHOLD ROTATE_THRESHOLD)
        ["<ralph>ROTATE</ralph>"]).2 = none
    ∧ detect_signal "<ralph>ROTATE</ralph>" = some Signal.ROTATE := by
  refine ⟨rfl, rfl, rfl⟩

/-! Concrete workspace for the archive claims: the task file exists and the
three state files carry entries beyond their canonical headers. -/

def sampleTaskContent : String := "---\ntask: demo\n---\n\n- [x] A\n"

def sampleProgress : String :=
  PROGRESS_HEADER ++ "### 2024-01-01 00:00:00\nSession 1 started\n"

def sampleActivity : String := ACTIVITY_HEADER ++ "[00:00:01] READ foo.py\n"

def sampleErrors : String := ERRORS_HEADER ++ "[00:00:02] SHELL FAIL: make test\n"

def sampleFS : RalphFS :=
  { taskFile := some sampleTaskContent
    progress := some sampleProgress
    activity := some sampleActivity
    errors := some sampleErrors
    guardrails := some "# Ralph Guardrails (Signs)\n"
    completed := [] }

/-- C2: the claim describes the archive operation of src/ralph/archive.py
(move the task spec, copy progress/activity/errors with the same timestamp,
truncate them to their headers, leave guardrails untouched), and
archive_completed_task_full indeed does exactly that; but the driver loop
calls the archive_completed_task defined locally in src/ralph/loop.py, which
only moves the task file: progress.md, activity.log and errors.log keep
their full contents and no copy of them appears under completed/. -/
theorem C2_driver_archive_skips_state_files :
    archive_completed_task_loop sampleFS "20240101_120000"
      = ({ sampleFS with
            taskFile := none
            completed := [("RALPH_TASK_20240101_120000.md", sampleTaskContent)] },
          some "RALPH_TASK_20240101_120000.md")
    ∧ archive_completed_task_full sampleFS "20240101_120000"
      = ({ sampleFS with
            taskFile := none
            progress := some PROGRESS_HEADER
            activity := some ACTIVITY_HEADER
            errors := some ERRORS_HEADER
            completed := [("RALPH_TASK_20240101_120000.md", sampleTaskContent),
              ("progress_20240101_120000.md", sampleProgress),
              ("activity_20240101_120000.log", sampleActivity),
              ("errors_20240101_120000.log", sampleErrors)] },
          some "RALPH_TASK_20240101_120000.md") := by
  exact ⟨rfl, rfl⟩

/-- C8: track_failure with exit code 0 returns false and leaves the detector
unchanged; with a non-zero exit code it increments the counter of exactly
that command string and returns true precisely when the incremented counter
is at least 3. -/
theorem C8_track_failure_spec (d : GutterDetector) (cmd : String) (ec : Int) :
    (ec = 0 → d.track_failure cmd ec = (false, d))
    ∧ (ec ≠ 0 →
        ((d.track_failure cmd ec).2.failures cmd = d.failures cmd + 1
          ∧ (∀ c, c ≠ cmd → (d.track_failure cmd ec).2.failures c = d.failures c)
          ∧ ((d.track_failure cmd ec).1 = true ↔ 3 ≤ d.failures cmd + 1))) := by
  constructor
  · intro h
    simp [GutterDetector.track_failure, h]
  · intro h
    refine ⟨?_, ?_, ?_⟩
    · simp [GutterDetector.track_failure, h]
    · intro c hc
      simp [GutterDetector.track_failure, h, hc]
    · simp [GutterDetector.track_failure, h]

/-- C8 witness: both hypotheses of the specification theorem discharged at
concrete inputs — exit code 0 leaves the fresh detector unchanged, and exit
code 1 on a fresh detector sets the npm test counter to 1, which is below 3. -/
theorem C8_track_failure_witness :
    GutterDetector.init.track_failure "npm test" 0 = (false, GutterDetector.init)
    ∧ (GutterDetector.init.track_failure "npm test" 1).2.failures "npm test"
        = GutterDetector.init.failures "npm test" + 1
    ∧ ¬ (3 ≤ GutterDetector.init.failures "npm test" + 1) := by
  refine ⟨(C8_track_failure_spec GutterDetector.init "npm test" 0).1 rfl,
    ((C8_track_failure_spec GutterDetector.init "npm test" 1).2 (by decide)).1,
    by decide⟩

/-! Driver-loop lemmas and concrete oracle outcomes. -/

theorem rotateCursor_ne (n c : Nat) (h2 : 1 < n) (hc : c < n) :
    rotateCursor n c ≠ c := by
  unfold rotateCursor
  rw [if_neg (by omega)]
  rcases Nat.lt_or_ge (c + 1) n with h | h
  · rw [Nat.mod_eq_of_lt h]
    omega
  · have hcn : c + 1 = n := by omega
    rw [hcn, Nat.mod_self]
    omega

def oGutter : IterOutcome :=
  { raised := false, signal := "GUTTER", status := "INCOMPLETE:2",
    qwrite := none, answer := none, verify := "" }

def oRotate : IterOutcome :=
  { raised := false, signal := "ROTATE", status := "INCOMPLETE:2",
    qwrite := none, answer := none, verify := "" }

def oCompleteVerifyFail : IterOutcome :=
  { raised := false, signal := "COMPLETE", status := "COMPLETE",
    qwrite := none, answer := none, verify := "VERIFY_FAIL" }

def oQuestionTimeout : IterOutcome :=
  { raised := false, signal := "QUESTION", status := "INCOMPLETE:1",
    qwrite := some "Which DB?", answer := none, verify := "" }

def oNaturalIncomplete : IterOutcome :=
  { raised := false, signal := "", status := "INCOMPLETE:1",
    qwrite := none, answer := none, verify := "" }

def oNoCriteria : IterOutcome :=
  { raised := false, signal := "", status := "NO_CRITERIA",
    qwrite := none, answer := none, verify := "" }

/-- C3 counterexample: with the default K = 3, three verification failures
followed by a fourth completion claim make the driver skip verification,
archive, and finish with exit code 0 (the success outcome), not with a
non-zero fatal outcome as the claim states. -/
theorem C3_counterexample_success_exit :
    cliRun { nProviders := 1, maxIterations := 10, maxVerificationFailures := 3 }
        "INCOMPLETE:1"
        [oCompleteVerifyFail, oCompleteVerifyFail, oCompleteVerifyFail,
          oCompleteVerifyFail]
      = ([LoopEv.spawnAgent 1 0 false, LoopEv.spawnVerifier 0,
          LoopEv.spawnAgent 2 0 false, LoopEv.spawnVerifier 0,
          LoopEv.spawnAgent 3 0 false, LoopEv.spawnVerifier 0,
          LoopEv.spawnAgent 4 0 false, LoopEv.archive], some 0) := by
  simp [cliRun, driverRun, driverBody, DriverState.start, oCompleteVerifyFail,
    rotateCursor]

/-- C3 amended: once the verification-failure count has reached K, the next
pass whose completion status is COMPLETE skips verification, archives the
task, and run_ralph_loop returns normally — a success outcome (exit code 0
in the CLI), not a non-zero fatal one. -/
theorem C3_amended_giveup_archives_and_succeeds
    (P : DriverParams) (st : DriverState) (o : IterOutcome)
    (rest : List IterOutcome)
    (hr : o.raised = false) (hst : o.status = "COMPLETE")
    (hv : P.maxVerificationFailures ≤ st.verification_failures)
    (hit : st.iteration ≤ P.maxIterations) :
    driverBody P st o
      = ([LoopEv.spawnAgent st.iteration st.cursor false, LoopEv.archive],
        .done { st with qfile := o.qwrite, afile := none })
    ∧ driverRun P st (o :: rest)
      = ([LoopEv.spawnAgent st.iteration st.cursor false, LoopEv.archive],
        some LoopOutcome.success) := by
  have hb : driverBody P st o
      = ([LoopEv.spawnAgent st.iteration st.cursor false, LoopEv.archive],
        .done { st with qfile := o.qwrite, afile := none }) := by
    simp [driverBody, hr, hst, hv]
  exact ⟨hb, by simp [driverRun, Nat.not_lt.mpr hit, hb]⟩

/-- C3 amended witness: the state after three verification failures, with a
fourth completion claim, archives and the loop reports success. -/
theorem C3_amended_witness :
    driverRun { nProviders := 1, maxIterations := 10, maxVerificationFailures := 3 }
        { iteration := 4, verification_failures := 3, cursor := 0,
          qfile := none, afile := none }
        [oCompleteVerifyFail]
      = ([LoopEv.spawnAgent 4 0 false, LoopEv.archive],
        some LoopOutcome.success) := by
  exact (C3_amended_giveup_archives_and_succeeds
    { nProviders := 1, maxIterations := 10, maxVerificationFailures := 3 }
    { iteration := 4, verification_failures := 3, cursor := 0,
      qfile := none, afile := none }
    oCompleteVerifyFail [] rfl rfl (by decide) (by decide)).2

/-- C4: after a QUESTION whose operator response times out, the driver does
write an empty answer.md, delete question.md and increment the iteration
counter (first equation) — but on the very next pass the loop deletes
answer.md again before spawning the agent, so the agent is spawned with
answer.md absent (the spawnAgent event of iteration 2 records
answerPresent = false), contradicting the final part of the claim and the
loop code comment saying the agent will read answer.md on its next turn. -/
theorem C4_answer_file_gone_at_next_spawn :
    driverBody { nProviders := 1, maxIterations := 10, maxVerificationFailures := 3 }
        DriverState.start oQuestionTimeout
      = ([LoopEv.spawnAgent 1 0 false],
        .next { iteration := 2, verification_failures := 0, cursor := 0,
                qfile := none, afile := some "" })
    ∧ (driverRun { nProviders := 1, maxIterations := 10, maxVerificationFailures := 3 }
          DriverState.start [oQuestionTimeout, oNaturalIncomplete]).1
      = [LoopEv.spawnAgent 1 0 false, LoopEv.spawnAgent 2 0 false] := by
  constructor
  · simp [driverBody, DriverState.start, oQuestionTimeout]
  · simp [driverRun, driverBody, DriverState.start, oQuestionTimeout,
      oNaturalIncomplete, stringStartsWith]

/-- C5 counterexample: with max_iterations = 0 and one unchecked criterion,
the driver spawns no agent but exits with code 1 (the fatal max-iterations
outcome), not with the success outcome the claim asserts. -/
theorem C5_counterexample_max_iter_zero_is_fatal :
    cliRun { nProviders := 1, maxIterations := 0, maxVerificationFailures := 3 }
        (check_completion ["- [ ] A".data]) []
      = ([], some 1) := by
  rfl

/-- C5 amended: when every criterion is already checked at start the run
command exits 0 before the loop, spawning nothing; when max_iterations = 0
and the task is not already complete, the driver spawns nothing either, but
terminates through the fatal max-iterations path with exit code 1. -/
theorem C5_amended_no_spawn_outcomes
    (P : DriverParams) (lines : List (List Char)) (os : List IterOutcome) :
    (check_completion lines = "COMPLETE" →
      cliRun P (check_completion lines) os = ([], some 0))
    ∧ (P.maxIterations = 0 → check_completion lines ≠ "COMPLETE" →
      cliRun P (check_completion lines) os = ([], some 1)) := by
  constructor
  · intro h
    simp [cliRun, h]
  · intro h0 hne
    have hdr : driverRun P DriverState.start os
        = ([], some LoopOutcome.maxIterationsReached) := by
      cases os with
      | nil => simp [driverRun, DriverState.start, h0]
      | cons o rest => simp [driverRun, DriverState.start, h0]
    simp [cliRun, hne, hdr]

/-- C5 amended witness: a task whose single criterion is checked exits 0
with no events; an unchecked task with max_iterations = 0 exits 1 with no
events. -/
theorem C5_amended_witness :
    cliRun { nProviders := 1, maxIterations := 5, maxVerificationFailures := 3 }
        (check_completion ["- [x] A".data]) [] = ([], some 0)
    ∧ cliRun { nProviders := 1, maxIterations := 0, maxVerificationFailures := 3 }
        (check_completion ["- [ ] A".data]) [] = ([], some 1) := by
  exact ⟨(C5_amended_no_spawn_outcomes
      { nProviders := 1, maxIterations := 5, maxVerificationFailures := 3 }
      ["- [x] A".data] []).1 (by decide),
    (C5_amended_no_spawn_outcomes
      { nProviders := 1, maxIterations := 0, maxVerificationFailures := 3 }
      ["- [ ] A".data] []).2 rfl (by decide)⟩

/-- C6: the ring updates of the driver per signal. On GUTTER (with at least
two providers and criteria remaining) the cursor advances and the same
iteration number is retried; on ROTATE the cursor is unchanged and the next
iteration uses the same cursor, with the iteration counter incremented; on
promotion to verification the spawned verifier uses the advanced cursor; and
with at least two providers the advanced cursor differs from the cursor that
ran the implementation. -/
theorem C6_ring_updates_per_signal
    (P : DriverParams) (st : DriverState) (o : IterOutcome) :
    (o.raised = false → o.signal = "GUTTER" → o.status ≠ "COMPLETE" →
      1 < P.nProviders →
      driverBody P st o
        = ([LoopEv.spawnAgent st.iteration st.cursor false],
          .next { st with
                    qfile := o.qwrite, afile := none,
                    cursor := (st.cursor + 1) % P.nProviders }))
    ∧ (o.raised = false → o.signal = "ROTATE" → o.status ≠ "COMPLETE" →
      driverBody P st o
        = ([LoopEv.spawnAgent st.iteration st.cursor false],
          .next { st with
                    qfile := o.qwrite, afile := none,
                    iteration := st.iteration + 1 }))
    ∧ (o.raised = false → o.status = "COMPLETE" →
      st.verification_failures < P.maxVerificationFailures →
      LoopEv.spawnVerifier (rotateCursor P.nProviders st.cursor)
        ∈ (driverBody P st o).1)
    ∧ (1 < P.nProviders → st.cursor < P.nProviders →
      rotateCursor P.nProviders st.cursor ≠ st.cursor) := by
  refine ⟨?_, ?_, ?_, ?_⟩
  · intro hr hsig hst hn
    simp [driverBody, hr, hsig, hst, rotateCursor, Nat.not_le_of_lt hn]
  · intro hr hsig hst
    simp [driverBody, hr, hsig, hst]
  · intro hr hst hv
    by_cases hvp : o.verify = "VERIFY_PASS"
    · simp [driverBody, hr, hst, hvp, Nat.not_le.mpr hv]
    · simp [driverBody, hr, hst, hvp, Nat.not_le.mpr hv]
  · intro hn hc
    exact rotateCursor_ne P.nProviders st.cursor hn hc

/-- C6 witness: the three transitions at concrete inputs over a two-provider
ring, plus the cursor inequality at cursor 0. -/
theorem C6_ring_updates_witness :
    driverBody { nProviders := 2, maxIterations := 10, maxVerificationFailures := 3 }
        DriverState.start oGutter
      = ([LoopEv.spawnAgent 1 0 false],
        .next { iteration := 1, verification_failures := 0, cursor := 1,
                qfile := none, afile := none })
    ∧ driverBody { nProviders := 2, maxIterations := 10, maxVerificationFailures := 3 }
        DriverState.start oRotate
      = ([LoopEv.spawnAgent 1 0 false],
        .next { iteration := 2, verification_failures := 0, cursor := 0,
                qfile := none, afile := none })
    ∧ LoopEv.spawnVerifier (rotateCursor 2 0)
      ∈ (driverBody { nProviders := 2, maxIterations := 10, maxVerificationFailures := 3 }
          DriverState.start oCompleteVerifyFail).1
    ∧ rotateCursor 2 0 ≠ 0 := by
  have h := C6_ring_updates_per_signal
    { nProviders := 2, maxIterations := 10, maxVerificationFailures := 3 }
    DriverState.start oGutter
  have h2 := C6_ring_updates_per_signal
    { nProviders := 2, maxIterations := 10, maxVerificationFailures := 3 }
    DriverState.start oRotate
  have h3 := C6_ring_updates_per_signal
    { nProviders := 2, maxIterations := 10, maxVerificationFailures := 3 }
    DriverState.start oCompleteVerifyFail
  refine ⟨?_, ?_, h3.2.2.1 rfl rfl (by decide), h.2.2.2 (by decide) (by decide)⟩
  · exact h.1 rfl rfl (by decide) (by decide)
  · exact h2.2.1 rfl rfl (by decide)

/-- C10: on VERIFY_FAIL the cursor advance made on entry to verification is
not undone: the driver re-enters iteration with the ring cursor equal to the
verifier cursor, which with at least two providers differs from the cursor
of the provider that did the implementation work. -/
theorem C10_verify_fail_keeps_verifier_cursor
    (P : DriverParams) (st : DriverState) (o : IterOutcome)
    (hr : o.raised = false) (hst : o.status = "COMPLETE")
    (hv : st.verification_failures < P.maxVerificationFailures)
    (hvf : o.verify = "VERIFY_FAIL")
    (hn : 1 < P.nProviders) (hc : st.cursor < P.nProviders) :
    driverBody P st o
      = ([LoopEv.spawnAgent st.iteration st.cursor false,
          LoopEv.spawnVerifier (rotateCursor P.nProviders st.cursor)],
        .next { st with
                  qfile := o.qwrite, afile := none,
                  cursor := rotateCursor P.nProviders st.cursor,
                  verification_failures := st.verification_failures + 1,
                  iteration := st.iteration + 1 })
    ∧ rotateCursor P.nProviders st.cursor ≠ st.cursor := by
  constructor
  · simp [driverBody, hr, hst, hvf, Nat.not_le.mpr hv]
  · exact rotateCursor_ne P.nProviders st.cursor hn hc

/-- C10 witness: a failed verification over a two-provider ring leaves the
cursor at the verifier position 1, not back at the implementer position 0. -/
theorem C10_verify_fail_witness :
    driverBody { nProviders := 2, maxIterations := 10, maxVerificationFailures := 3 }
        DriverState.start oCompleteVerifyFail
      = ([LoopEv.spawnAgent 1 0 false, LoopEv.spawnVerifier (rotateCursor 2 0)],
        .next { iteration := 2, verification_failures := 1,
                cursor := rotateCursor 2 0, qfile := none, afile := none })
    ∧ rotateCursor 2 0 ≠ 0 := by
  exact C10_verify_fail_keeps_verifier_cursor
    { nProviders := 2, maxIterations := 10, maxVerificationFailures := 3 }
    DriverState.start oCompleteVerifyFail
    rfl rfl (by decide) rfl (by decide) (by decide)

theorem driverRun_no_criteria (P : DriverParams) (os : List IterOutcome) :
    ∀ st : DriverState,
      (∀ o ∈ os, o.raised = false ∧ o.signal = "" ∧ o.status = "NO_CRITERIA") →
      st.iteration ≤ P.maxIterations →
      driverRun P st os
        = (List.replicate os.length
            (LoopEv.spawnAgent st.iteration st.cursor false), none) := by
  induction os with
  | nil =>
    intro st _ hit
    simp [driverRun, Nat.not_lt.mpr hit]
  | cons o rest ih =>
    intro st hos hit
    obtain ⟨hr, hsig, hst⟩ := hos o (by simp)
    have hpre : stringStartsWith "INCOMPLETE:" "NO_CRITERIA" = false := by decide
    have hb : driverBody P st o
        = ([LoopEv.spawnAgent st.iteration st.cursor false],
          .next { st with qfile := o.qwrite, afile := none }) := by
      simp [driverBody, hr, hsig, hst, hpre]
    have htail := ih { st with qfile := o.qwrite, afile := none }
      (fun x hx => hos x (by simp [hx])) hit
    simp [driverRun, Nat.not_lt.mpr hit, hb, htail, List.replicate_succ]

/-- C9: a task file with zero criterion lines gives completion status
NO_CRITERIA, and every pass that ends with no signal then leaves the
iteration counter (and everything else the spawn depends on) unchanged and
never promotes to verification: the run consists of one spawnAgent event per
pass, all carrying the same iteration number, with the loop still running
afterwards. -/
theorem C9_no_criteria_repeats_iteration
    (P : DriverParams) (st : DriverState) (lines : List (List Char))
    (os : List IterOutcome)
    (htot : (count_criteria lines).2 = 0)
    (hos : ∀ o ∈ os, o.raised = false ∧ o.signal = ""
      ∧ o.status = check_completion lines)
    (hit : st.iteration ≤ P.maxIterations) :
    check_completion lines = "NO_CRITERIA"
    ∧ driverRun P st os
      = (List.replicate os.length
          (LoopEv.spawnAgent st.iteration st.cursor false), none) := by
  have hnc : check_completion lines = "NO_CRITERIA" := by
    simp [check_completion, htot]
  refine ⟨hnc, driverRun_no_criteria P os st ?_ hit⟩
  intro o ho
  obtain ⟨h1, h2, h3⟩ := hos o ho
  exact ⟨h1, h2, by rw [h3, hnc]⟩

/-- C9 witness: a criterion-free task over two no-signal passes spawns
iteration 1 twice and the loop keeps running. -/
theorem C9_no_criteria_witness :
    check_completion ["no boxes here".data] = "NO_CRITERIA"
    ∧ driverRun { nProviders := 1, maxIterations := 10, maxVerificationFailures := 3 }
        DriverState.start [oNoCriteria, oNoCriteria]
      = ([LoopEv.spawnAgent 1 0 false, LoopEv.spawnAgent 1 0 false], none) := by
  have h := C9_no_criteria_repeats_iteration
    { nProviders := 1, maxIterations := 10, maxVerificationFailures := 3 }
    DriverState.start ["no boxes here".data] [oNoCriteria, oNoCriteria]
    (by decide) (by decide) (by decide)
  exact ⟨h.1, by simpa using h.2⟩

end Ralph
